import Mathlib

/-!
Verification development for the LMRK backend (Express + MSSQL + JWT).

The repository consists of several near-duplicate HTTP server variants
(`src/index.js`, `src/server.js`, and the unnamed parts) plus a JWT
authentication module (`src/unnamed/part_002`).  This file gives a shallow
embedding of the connection-manager lifecycle, the JWT token service and
middleware, the startup environment validation, and the high-value-transaction
report endpoints, and proves properties about them.

Modelling conventions:
* Pool handles are `Nat` identifiers; a fresh-handle counter threads through.
* The database world is a `reachable : Bool` flag (can a new connection be
  established) together with `live : Nat → Bool` (does a round-trip query on a
  given existing handle succeed).
* JavaScript request-body values are modelled by `JVal` (undefined, string, or
  number at integer precision; fractional floating point is out of scope, and
  numeric string parsing is modelled by `String.toInt?`).
* The single-threaded JavaScript event loop with `await` suspension points is
  modelled, where concurrency matters, by an explicit interleaving of
  per-caller program counters (`Pc`, `stepCaller`).
* `jsonwebtoken` semantics (external library): `sign` stamps `iat`/`exp`;
  `verify` fails on wrong secret, malformed input, or `exp ≤ now`.
-/

/-- Model of a JavaScript request-body value: `undefined`, a string, or a
number.  Numbers are modelled at integer precision. -/
inductive JVal where
  | undef
  | str (s : String)
  | num (n : Int)
deriving DecidableEq, Repr

/-- JavaScript truthiness for `JVal`: `undefined`, `""` and `0` are falsy. -/
def JVal.truthy : JVal → Bool
  | .undef => false
  | .str s => s != ""
  | .num n => n != 0

/-- Model of `parseFloat` at integer precision: `none` plays the role of
`NaN` (undefined input, or a string that does not parse as an integer). -/
def JVal.parseFloat : JVal → Option Int
  | .undef => none
  | .num n => some n
  | .str s => s.toInt?

/-- Model of the JavaScript test `v.length > k`: strings compare their length;
for numbers and `undefined` the `.length` property is `undefined`, and
`undefined > k` is `false`. -/
def JVal.lenGt (v : JVal) (k : Nat) : Bool :=
  match v with
  | .str s => s.length > k
  | _ => false

/-- Result of one `getDbConnection`-style acquire call: the returned handle or
error, the pool state afterwards, the fresh-handle counter afterwards, and the
number of liveness-probe queries (`SELECT 1`) issued on an existing handle. -/
structure AcquireResult where
  result : Except String Nat
  pool : Option Nat
  next : Nat
  probes : Nat
deriving Repr

namespace IndexJs

/-- Shallow embedding of `initializeDatabase` from `src/index.js:280-307`
(sequential semantics): if a pool handle exists it is returned as is;
otherwise a connect is attempted, which succeeds with a fresh handle exactly
when the database is reachable (the post-connect `SELECT 1 as test` succeeds
in the same case), and on failure the pool is reset to `null` and the error
propagates. -/
def initializeDatabase (reachable : Bool) (pool : Option Nat) (next : Nat) :
    Except String Nat × Option Nat × Nat :=
  match pool with
  | some p => (Except.ok p, some p, next)
  | none =>
    if reachable then (Except.ok next, some next, next + 1)
    else (Except.error ("Database connection failed"), none, next)

/-- Shallow embedding of `getDbConnection` from `src/index.js:310-328`: with no
pool, initialize (wrapping failure as the not-available error); with a pool,
probe it with `SELECT 1 as test`, return it if the probe succeeds, otherwise
discard it and re-initialize. -/
def getDbConnection (reachable : Bool) (live : Nat → Bool) (pool : Option Nat)
    (next : Nat) : AcquireResult :=
  match pool with
  | none =>
    match initializeDatabase reachable none next with
    | (Except.ok p, pool', next') => ⟨Except.ok p, pool', next', 0⟩
    | (Except.error _, pool', next') =>
        ⟨Except.error ("Database connection not available"), pool', next', 0⟩
  | some p =>
    if live p then ⟨Except.ok p, some p, next, 1⟩
    else
      match initializeDatabase reachable none next with
      | (r, pool', next') => ⟨r, pool', next', 1⟩

end IndexJs

namespace ServerJs

/-- Shallow embedding of `getDbConnection` from `src/server.js:59-68` (the same
code appears in `src/unnamed/part_000`): with no pool, initialize (wrapping
failure); with a pool, return it directly — no liveness probe is issued and a
stale handle is never discarded. -/
def getDbConnection (reachable : Bool) (pool : Option Nat) (next : Nat) :
    AcquireResult :=
  match pool with
  | none =>
    match IndexJs.initializeDatabase reachable none next with
    | (Except.ok p, pool', next') => ⟨Except.ok p, pool', next', 0⟩
    | (Except.error _, pool', next') =>
        ⟨Except.error ("Database connection not available"), pool', next', 0⟩
  | some p => ⟨Except.ok p, some p, next, 0⟩

end ServerJs

/-- Outcome of `startServer`: the process either binds the listening port or
exits with a code, never both. -/
inductive StartOutcome where
  | listening (port : Nat)
  | exited (code : Nat)
deriving DecidableEq, Repr

/-- Shallow embedding of `startServer` from `src/index.js:1570-1591` and
`src/server.js:310-331`: one eager `initializeDatabase()`; on success
`app.listen(PORT)`, on failure `process.exit(1)` without ever listening. -/
def startServer (reachable : Bool) (port : Nat) : StartOutcome :=
  match (IndexJs.initializeDatabase reachable none 0).1 with
  | Except.ok _ => StartOutcome.listening port
  | Except.error _ => StartOutcome.exited 1

/-- Program counter of one caller of `initializeDatabase` during cold start:
`start` — about to perform the `if (globalPool)` check; `connecting` — has
called `sql.connect` and is suspended at the `await`; `done h` — returned
handle `h`. -/
inductive Pc where
  | start
  | connecting
  | done (h : Nat)
deriving DecidableEq, Repr

/-- Event-loop state for N concurrent callers of `initializeDatabase`:
the shared `globalPool` variable, the count of underlying connect attempts
made so far, the fresh-handle counter, and each caller's program counter. -/
structure PoolSys where
  pool : Option Nat
  connects : Nat
  next : Nat
  callers : List Pc
deriving DecidableEq, Repr

/-- One event-loop step of caller `i` of `initializeDatabase`
(`src/index.js:280-307`), with the database reachable.  From `start`: if
`globalPool` is set, return it (no connect attempt); otherwise call
`sql.connect` — one underlying connect attempt — and suspend at the `await`.
From `connecting`: the connect resolves, `globalPool` is assigned the new
handle, and the caller returns it.  A caller that is `done`, or an index out
of range, leaves the state unchanged. -/
def stepCaller (s : PoolSys) (i : Nat) : PoolSys :=
  match s.callers[i]? with
  | some Pc.start =>
    match s.pool with
    | some p => { s with callers := s.callers.set i (Pc.done p) }
    | none => { s with connects := s.connects + 1,
                       callers := s.callers.set i Pc.connecting }
  | some Pc.connecting =>
    { s with pool := some s.next, next := s.next + 1,
             callers := s.callers.set i (Pc.done s.next) }
  | _ => s

/-- Run a schedule (a list of caller indices) from a state. -/
def runSched (s : PoolSys) (sched : List Nat) : PoolSys :=
  sched.foldl stepCaller s

/-- Cold-start state: no pool handle, no connect attempts yet, `n` callers all
about to enter `initializeDatabase`. -/
def coldStart (n : Nat) : PoolSys :=
  ⟨none, 0, 0, List.replicate n Pc.start⟩

/-- JWT claims payload used throughout the backend: `userId`, `username`,
`role` (the `tokenPayload` shape built at `/api/auth/login`). -/
structure TokenPayload where
  userId : Nat
  username : String
  role : String
deriving DecidableEq, Repr

/-- A signed JWT as produced by `jwt.sign(payload, secret, {expiresIn})`:
the claims, the signing secret (standing for the signature), the issued-at
time and the expiry time, on a logical clock in seconds.  Nothing in the
token marks whether it was issued as an access or a refresh token. -/
structure Jwt where
  payload : TokenPayload
  secret : String
  iat : Nat
  exp : Nat
deriving DecidableEq, Repr

/-- A string presented as a token: either garbage that is not a JWT at all,
or a structurally valid signed token. -/
inductive TokenBlob where
  | malformed (s : String)
  | signed (t : Jwt)
deriving DecidableEq, Repr

/-- The auth module configuration from `src/unnamed/part_002:44-49`: the
symmetric secret and the two expiry durations (in seconds on the logical
clock). -/
structure AuthConfig where
  jwtSecret : String
  jwtExpiresIn : Nat
  jwtRefreshExpiresIn : Nat
deriving DecidableEq, Repr

/-- Model of `jwt.sign(payload, secret, {expiresIn})`: stamps `iat := now`
and `exp := now + expiresIn`. -/
def jwtSign (payload : TokenPayload) (secret : String) (expiresIn : Nat)
    (now : Nat) : Jwt :=
  ⟨payload, secret, now, now + expiresIn⟩

/-- Model of `jwt.verify(token, secret)` on a structurally valid token:
fails on a wrong secret (bad signature / tampering) and on expiry
(`exp ≤ now`), otherwise returns the decoded claims. -/
def jwtVerify (t : Jwt) (secret : String) (now : Nat) :
    Except String TokenPayload :=
  if t.secret ≠ secret then Except.error ("invalid signature")
  else if t.exp ≤ now then Except.error ("jwt expired")
  else Except.ok t.payload

/-- Model of `jwt.verify` on an arbitrary presented string: garbage is
rejected as malformed. -/
def jwtVerifyBlob (blob : TokenBlob) (secret : String) (now : Nat) :
    Except String TokenPayload :=
  match blob with
  | .malformed _ => Except.error ("jwt malformed")
  | .signed t => jwtVerify t secret now

/-- Shallow embedding of `verifyToken` from `src/unnamed/part_002:74-80`:
any `jwt.verify` failure is reported uniformly as the single error message,
without distinguishing the cause. -/
def verifyToken (cfg : AuthConfig) (blob : TokenBlob) (now : Nat) :
    Except String TokenPayload :=
  match jwtVerifyBlob blob cfg.jwtSecret now with
  | Except.ok p => Except.ok p
  | Except.error _ => Except.error ("Invalid or expired token")

/-- Shallow embedding of `generateAccessToken` from
`src/unnamed/part_002:56-58`: signs the payload with the module secret and
the configured `JWT_EXPIRES_IN` ttl. -/
def generateAccessToken (cfg : AuthConfig) (payload : TokenPayload)
    (now : Nat) : Jwt :=
  jwtSign payload cfg.jwtSecret cfg.jwtExpiresIn now

/-- Shallow embedding of `generateRefreshToken` from
`src/unnamed/part_002:65-67`: same secret, the configured
`JWT_REFRESH_EXPIRES_IN` ttl. -/
def generateRefreshToken (cfg : AuthConfig) (payload : TokenPayload)
    (now : Nat) : Jwt :=
  jwtSign payload cfg.jwtSecret cfg.jwtRefreshExpiresIn now

/-- Outcome of a middleware: either respond immediately with a status and
message, or proceed to the handler with `req.user` set to the given claims. -/
inductive MwResult where
  | respond (status : Nat) (message : String)
  | proceed (user : TokenPayload)
deriving DecidableEq, Repr

/-- The bearer-token extraction state of a request's `Authorization` header,
as computed by `authHeader && authHeader.split(" ")[1]`: outer `none` — no
header at all; `some none` — a header present but with no second
space-separated part (token falsy); `some (some blob)` — a bearer payload. -/
abbrev AuthHeader := Option (Option TokenBlob)

/-- The extraction `authHeader && authHeader.split(" ")[1]`: a missing header
yields no token, a present header yields whatever stands after the first
space (possibly nothing). -/
def extractToken : AuthHeader → Option TokenBlob
  | none => none
  | some t => t

/-- Shallow embedding of `authenticateToken` from
`src/unnamed/part_002:106-128`: no token → 401 `Access token required`;
token present but `verifyToken` throws → 403 `Invalid or expired token`;
token verifies → `req.user := decoded` and `next()`. -/
def authenticateToken (cfg : AuthConfig) (now : Nat) (hdr : AuthHeader) :
    MwResult :=
  match extractToken hdr with
  | none => MwResult.respond 401 ("Access token required")
  | some blob =>
    match verifyToken cfg blob now with
    | Except.ok decoded => MwResult.proceed decoded
    | Except.error _ => MwResult.respond 403 ("Invalid or expired token")

/-- Shallow embedding of `optionalAuthForReports` from
`src/unnamed/part_002:134-147`: unconditionally sets
`req.user := {userId: 1, username: "system", role: "admin"}` and calls
`next()`; the Authorization header is never read. -/
def optionalAuthForReports (_hdr : AuthHeader) : MwResult :=
  MwResult.proceed ⟨1, "system", "admin"⟩

/-- Response shape of the refresh endpoint: HTTP status, `success` flag,
message, and on success the new access token and the echoed user claims. -/
structure RefreshResponse where
  status : Nat
  success : Bool
  message : String
  newAccessToken : Option Jwt
  user : Option TokenPayload
deriving DecidableEq, Repr

/-- Shallow embedding of `refreshAccessToken` from
`src/unnamed/part_002:198-237`: missing `refreshToken` in the body → 401;
`verifyToken` failure → 403; otherwise a fresh access token is signed over
the decoded `userId`/`username`/`role` and returned with status 200.
The verification is `verifyToken` itself — signature and expiry against the
single shared secret, with nothing distinguishing token kinds. -/
def refreshAccessToken (cfg : AuthConfig) (now : Nat)
    (body : Option TokenBlob) : RefreshResponse :=
  match body with
  | none => ⟨401, false, "Refresh token required", none, none⟩
  | some blob =>
    match verifyToken cfg blob now with
    | Except.ok decoded =>
      ⟨200, true, "Token refreshed successfully",
        some (jwtSign ⟨decoded.userId, decoded.username, decoded.role⟩
          cfg.jwtSecret cfg.jwtExpiresIn now),
        some ⟨decoded.userId, decoded.username, decoded.role⟩⟩
    | Except.error _ => ⟨403, false, "Invalid refresh token", none, none⟩

/-- The environment variables validated at startup, from `src/index.js:8`. -/
def requiredEnvVars : List String :=
  ["DB_USER", "DB_PASSWORD", "DB_SERVER", "DB_NAME"]

/-- JavaScript truthiness of an environment value: absent and empty are
falsy (`!process.env[v]`). -/
def envTruthy : Option String → Bool
  | none => false
  | some s => s != ""

/-- Outcome of the startup environment check. -/
inductive EnvCheck where
  | proceed
  | exit (code : Nat)
deriving DecidableEq, Repr

/-- Shallow embedding of the startup loop at `src/index.js:9-14`: if any of
the four required variables is falsy, `process.exit(1)`; otherwise execution
continues.  No other configuration value is checked. -/
def validateRequiredEnv (env : String → Option String) : EnvCheck :=
  if requiredEnvVars.all (fun v => envTruthy (env v)) then EnvCheck.proceed
  else EnvCheck.exit 1

/-- The hardcoded fallback JWT secret from `src/unnamed/part_002:45-47`. -/
def defaultJwtSecret : String :=
  "your-super-secret-jwt-key-change-this-in-production"

/-- JavaScript `v || d` on an environment value: the default is used when the
value is absent or empty. -/
def jsOrDefault (v : Option String) (d : String) : String :=
  match v with
  | some s => if s = "" then d else s
  | none => d

/-- Shallow embedding of `JWT_SECRET` from `src/unnamed/part_002:45-47`:
`process.env.JWT_SECRET || <hardcoded default>` — a missing secret silently
falls back to the default instead of failing startup. -/
def JWT_SECRET (env : String → Option String) : String :=
  jsOrDefault (env ("JWT_SECRET")) defaultJwtSecret

/-- Abstract outcome of the database interaction of a high-value report call,
classifying the error exactly the way `src/index.js:940-963` classifies
`err.message`. -/
inductive DbOutcome where
  | rows (n : Nat)
  | errProcNotFound
  | errParam
  | errOther (msg : String)
deriving DecidableEq, Repr

/-- Response of a high-value report endpoint: HTTP status, message, and the
number of database interactions performed while handling the request. -/
structure HVResult where
  status : Nat
  message : String
  dbCalls : Nat
deriving DecidableEq, Repr

/-- The database section of `/api/high-value-trans`
(`src/index.js:916-963`): acquire + execute counts as one database
interaction; success → 200, and the three error classes map to their 500
messages. -/
def runHVQuery : DbOutcome → HVResult
  | .rows _ => ⟨200, "", 1⟩
  | .errProcNotFound =>
    ⟨500, "Stored procedure AuditHVTranRpt_Sp not found in database.", 1⟩
  | .errParam => ⟨500, "Parameter mismatch in stored procedure call.", 1⟩
  | .errOther _ =>
    ⟨500, "Failed to fetch high value transactions report data.", 1⟩

/-- Request body of `POST /api/high-value-trans` (`src/index.js:849`). -/
structure HVBody where
  branchName : JVal
  «section» : JVal
  scheme : JVal
  amount1 : JVal
  amount2 : JVal
  fromDate : JVal
  toDate : JVal
deriving DecidableEq, Repr

/-- Model of the JavaScript test `isNaN(x) || x < 0` on a parsed amount
(`none` is `NaN`). -/
def amountInvalid (v : Option Int) : Bool :=
  match v with
  | none => true
  | some n => n < 0

/-- Model of the JavaScript comparison `x > y` on parsed amounts; with a
`NaN` operand the comparison is `false` (never reached by the handler, whose
earlier checks already rejected `NaN`). -/
def amountGt (a b : Option Int) : Bool :=
  match a, b with
  | some x, some y => x > y
  | _, _ => false

/-- The required-field section of the `/api/high-value-trans` validation
(`src/index.js:852-873`), in source order: the first falsy field produces
its 400 response; `none` means this section passed. -/
def hvRequiredError (body : HVBody) : Option HVResult :=
  if !body.branchName.truthy then some ⟨400, "Branch name is required", 0⟩
  else if !body.«section».truthy then some ⟨400, "Section is required", 0⟩
  else if !body.scheme.truthy then some ⟨400, "Scheme is required", 0⟩
  else if !body.amount1.truthy then some ⟨400, "Minimum amount is required", 0⟩
  else if !body.amount2.truthy then some ⟨400, "Maximum amount is required", 0⟩
  else if !body.fromDate.truthy then some ⟨400, "From date is required", 0⟩
  else if !body.toDate.truthy then some ⟨400, "To date is required", 0⟩
  else none

/-- The string-length section of the `/api/high-value-trans` validation
(`src/index.js:875-890`). -/
def hvLengthError (body : HVBody) : Option HVResult :=
  if body.branchName.lenGt 10 then
    some ⟨400, "Branch name too long (max 10 characters)", 0⟩
  else if body.«section».lenGt 10 then
    some ⟨400, "Section too long (max 10 characters)", 0⟩
  else if body.scheme.lenGt 30 then
    some ⟨400, "Scheme too long (max 30 characters)", 0⟩
  else none

/-- The amount section of the `/api/high-value-trans` validation
(`src/index.js:892-909`): `minAmountNum = parseFloat(amount1)` rejected when
`NaN` or negative, then the same for `maxAmountNum`, then
`minAmountNum > maxAmountNum` rejected. -/
def hvAmountError (body : HVBody) : Option HVResult :=
  if amountInvalid body.amount1.parseFloat then
    some ⟨400, "Minimum amount must be a valid positive number", 0⟩
  else if amountInvalid body.amount2.parseFloat then
    some ⟨400, "Maximum amount must be a valid positive number", 0⟩
  else if amountGt body.amount1.parseFloat body.amount2.parseFloat then
    some ⟨400, "Minimum amount cannot be greater than maximum amount", 0⟩
  else none

/-- The whole validation prefix of the `/api/high-value-trans` handler: the
three sections run in source order and the first failure wins (early
return). -/
def hvValidationError (body : HVBody) : Option HVResult :=
  hvRequiredError body <|> hvLengthError body <|> hvAmountError body

/-- Shallow embedding of the `POST /api/high-value-trans` handler from
`src/index.js:844-965`: every validation failure returns its 400 response
with zero database interactions; only when all checks pass is the database
touched. -/
def highValueTrans (body : HVBody) (db : DbOutcome) : HVResult :=
  match hvValidationError body with
  | some r => r
  | none => runHVQuery db

/-- Request body of `POST /api/reports/high-value` (`src/server.js:173-181`). -/
structure HVBodyS where
  branchName : JVal
  «section» : JVal
  scheme : JVal
  minAmount : JVal
  maxAmount : JVal
  fromDate : JVal
  toDate : JVal
deriving DecidableEq, Repr

/-- Response of the `server.js` high-value endpoint, additionally recording
the amount values bound to the stored-procedure parameters (`none` models a
`NaN` binding). -/
structure HVResultS where
  status : Nat
  message : String
  dbCalls : Nat
  boundAmount : Option Int
  boundAmount2 : Option Int
deriving DecidableEq, Repr

/-- Model of `parseFloat(v || "0")` from `src/server.js:191-192`. -/
def amountOrZero (v : JVal) : Option Int :=
  if v.truthy then v.parseFloat else some 0

/-- Shallow embedding of the `POST /api/reports/high-value` handler from
`src/server.js:171-207`: no validation of any field — the handler goes
straight to the database, binding `parseFloat(minAmount || "0")` and
`parseFloat(maxAmount || "0")`, and maps success to 200 and any error to
500. -/
def reportsHighValue (body : HVBodyS) (db : DbOutcome) : HVResultS :=
  match db with
  | .rows _ =>
    ⟨200, "", 1, amountOrZero body.minAmount, amountOrZero body.maxAmount⟩
  | _ =>
    ⟨500, "Failed to fetch high value transaction report from database.", 1,
      amountOrZero body.minAmount, amountOrZero body.maxAmount⟩

/-- A row of `Tbl_UserMaster` as selected by `GET /api/test/user/:username`
(`src/index.js:533-539`). -/
structure UserRec where
  User_Name : String
  User_Password : String
  User_ID : Nat
  Active : Bool
  Role : String
deriving DecidableEq, Repr

/-- Response of `GET /api/test/user/:username`: HTTP status, `success` flag,
message, and for a found user the password-derived fields
`passwordLength` and `passwordMatch`. -/
structure TestUserResponse where
  status : Nat
  success : Bool
  message : String
  passwordLength : Option Nat
  passwordMatch : Option Bool
deriving DecidableEq, Repr

/-- Shallow embedding of the `GET /api/test/user/:username` handler from
`src/index.js:528-570`: look the user up by username; if found, respond via
`res.json` (status 200) with the stored password's length and whether the
stored password equals the literal string `"2255"`; if not found, respond via
`res.json` (also status 200) with `success: false`. -/
def getTestUser (db : List UserRec) (username : String) : TestUserResponse :=
  match db.find? (fun u => u.User_Name == username) with
  | none => ⟨200, false, "User not found", none, none⟩
  | some u =>
    ⟨200, true, "User found", some u.User_Password.length,
      some (u.User_Password == "2255")⟩

/-- A registered Express route: method, path, and the middleware names
installed in front of the handler. -/
structure RouteSpec where
  method : String
  path : String
  middlewares : List String
deriving DecidableEq, Repr

/-- The registration `app.get("/api/test/user/:username", async handler)` at
`src/index.js:528`: no middleware at all guards this route. -/
def testUserRoute : RouteSpec :=
  ⟨"GET", "/api/test/user/:username", []⟩

/-- A concrete auth configuration used for witnesses. -/
def cfgW : AuthConfig := ⟨"test-secret", 3600, 7200⟩

/-- A concrete claims payload used for witnesses. -/
def pW : TokenPayload := ⟨7, "alice", "user"⟩

/-- A concrete environment supplying exactly the four database variables and
nothing else (in particular no `JWT_SECRET`, no `PORT`, no CORS origins, no
expiry durations). -/
def envDbOnly (v : String) : Option String :=
  if v = "DB_USER" then some ("u")
  else if v = "DB_PASSWORD" then some ("p")
  else if v = "DB_SERVER" then some ("h")
  else if v = "DB_NAME" then some ("d")
  else none

/-- Concrete `index.js` high-value body with `minAmount = 500000 >
maxAmount = 100000` and all other fields well-formed. -/
def hvBodyMinGtMax : HVBody :=
  ⟨JVal.str ("ALL"), JVal.str ("DEPOSIT"), JVal.str ("ALL"),
    JVal.num 500000, JVal.num 100000,
    JVal.str ("2024-01-01"), JVal.str ("2024-12-31")⟩

/-- Concrete `server.js` high-value body with `minAmount = 500000 >
maxAmount = 100000` and all other fields well-formed. -/
def hvBodySMinGtMax : HVBodyS :=
  ⟨JVal.str ("ALL"), JVal.str ("DEPOSIT"), JVal.str ("ALL"),
    JVal.num 500000, JVal.num 100000,
    JVal.str ("2024-01-01"), JVal.str ("2024-12-31")⟩

/-- A concrete user record used for the `GET /api/test/user` witness. -/
def userJohn : UserRec := ⟨"john", "2255", 3, true, "admin"⟩

/-- Claim C1 (counterexample): during a cold start with two concurrent
callers, the interleaving in which both callers pass the `if (globalPool)`
check before either `sql.connect` resolves makes TWO underlying connect
attempts, not one, and the two callers end up holding two distinct live
pool handles (0 and 1). -/
theorem C1_counterexample :
    (runSched (coldStart 2) [0, 1, 0, 1]).connects = 2 ∧
    (runSched (coldStart 2) [0, 1, 0, 1]).callers = [Pc.done 0, Pc.done 1] := by
  decide

/-- Claim C1 (amended): `initializeDatabase` memoizes only the completed
handle, not the in-flight creation: a caller that performs its
`if (globalPool)` check while the handle already exists makes no new connect
attempt and receives the existing handle; callers interleaved during creation
each make their own connect attempt. -/
theorem C1_memoized_after_completion (s : PoolSys) (i : Nat) (p : Nat)
    (hp : s.pool = some p) (hc : s.callers[i]? = some Pc.start) :
    (stepCaller s i).connects = s.connects ∧
    (stepCaller s i).pool = some p ∧
    (stepCaller s i).callers = s.callers.set i (Pc.done p) := by
  simp [stepCaller, hc, hp]

/-- Witness for C1 (amended): after caller 0 runs to completion on a cold
start (one connect attempt), caller 1 steps from `start` with the handle
present: no new connect attempt, and it receives the existing handle 0. -/
theorem C1_memoized_after_completion_witness :
    (stepCaller (runSched (coldStart 2) [0, 0]) 1).connects
        = (runSched (coldStart 2) [0, 0]).connects ∧
    (stepCaller (runSched (coldStart 2) [0, 0]) 1).pool = some 0 ∧
    (stepCaller (runSched (coldStart 2) [0, 0]) 1).callers
        = (runSched (coldStart 2) [0, 0]).callers.set 1 (Pc.done 0) :=
  C1_memoized_after_completion (runSched (coldStart 2) [0, 0]) 1 0
    (by decide) (by decide)

/-- Claim C2 (counterexample): the `server.js` variant of `getDbConnection`,
called with an existing pool handle, returns that handle with ZERO liveness
probes issued — no round-trip query precedes the return, and a stale handle
is never discarded. -/
theorem C2_counterexample :
    ServerJs.getDbConnection true (some 5) 6
      = ⟨Except.ok 5, some 5, 6, 0⟩ := rfl

/-- Claim C2 (amended): in the `index.js` variant of `getDbConnection`,
every call with an existing handle issues exactly one liveness probe; if the
probe succeeds the handle is returned unchanged; if the probe fails the
handle is discarded and a fresh one is established before returning; and
after a discard, the next acquire succeeds once the database is reachable. -/
theorem C2_probe_and_rebuild (reachable : Bool) (live : Nat → Bool)
    (p next : Nat) :
    (IndexJs.getDbConnection reachable live (some p) next).probes = 1 ∧
    (live p = true →
      IndexJs.getDbConnection reachable live (some p) next
        = ⟨Except.ok p, some p, next, 1⟩) ∧
    (live p = false → reachable = true →
      IndexJs.getDbConnection reachable live (some p) next
        = ⟨Except.ok next, some next, next + 1, 1⟩) ∧
    (reachable = true →
      IndexJs.getDbConnection reachable live none next
        = ⟨Except.ok next, some next, next + 1, 0⟩) := by
  refine ⟨?_, ?_, ?_, ?_⟩
  · cases h : live p <;> cases reachable <;>
      simp [IndexJs.getDbConnection, IndexJs.initializeDatabase, h]
  · intro h
    simp [IndexJs.getDbConnection, h]
  · intro h hr
    subst hr
    simp [IndexJs.getDbConnection, IndexJs.initializeDatabase, h]
  · intro hr
    subst hr
    simp [IndexJs.getDbConnection, IndexJs.initializeDatabase]

/-- Witness for C2 (amended): with a dead handle 5 and the database
reachable, the probe fails and a fresh handle 6 is established; with a live
handle 5, the probe succeeds and handle 5 is returned; both calls issue
exactly one probe. -/
theorem C2_probe_and_rebuild_witness :
    IndexJs.getDbConnection true (fun _ => false) (some 5) 6
      = ⟨Except.ok 6, some 6, 7, 1⟩ ∧
    IndexJs.getDbConnection true (fun _ => true) (some 5) 6
      = ⟨Except.ok 5, some 5, 6, 1⟩ :=
  ⟨(C2_probe_and_rebuild true (fun _ => false) 5 6).2.2.1 rfl rfl,
   (C2_probe_and_rebuild true (fun _ => true) 5 6).2.1 rfl⟩

/-- Claim C3: with the database unreachable, `startServer` exits with code 1
and never reaches `app.listen`; with the database reachable, it binds the
listening port.  The two outcomes are exclusive constructors, so the process
never serves with a broken backing store. -/
theorem C3_fail_fast (port : Nat) :
    startServer false port = StartOutcome.exited 1 ∧
    startServer true port = StartOutcome.listening port := by
  constructor <;> rfl

/-- Claim C4 (counterexample): the `server.js` endpoint
`POST /api/reports/high-value`, given `minAmount = 500000 > maxAmount =
100000`, performs a database call (dbCalls = 1) and responds 200, not 400 —
no validation happens before the database is touched. -/
theorem C4_counterexample :
    reportsHighValue hvBodySMinGtMax (DbOutcome.rows 2)
      = ⟨200, "", 1, some 500000, some 100000⟩ := rfl

/-- Every response produced by the required-field section is a 400 with no
database call. -/
theorem hvRequiredError_is400 (body : HVBody) (r : HVResult)
    (h : hvRequiredError body = some r) : r.status = 400 ∧ r.dbCalls = 0 := by
  unfold hvRequiredError at h
  repeat' split at h
  all_goals first
    | (injection h with h2; subst h2; exact ⟨rfl, rfl⟩)
    | (exact Option.noConfusion h)

/-- Every response produced by the length section is a 400 with no database
call. -/
theorem hvLengthError_is400 (body : HVBody) (r : HVResult)
    (h : hvLengthError body = some r) : r.status = 400 ∧ r.dbCalls = 0 := by
  unfold hvLengthError at h
  repeat' split at h
  all_goals first
    | (injection h with h2; subst h2; exact ⟨rfl, rfl⟩)
    | (exact Option.noConfusion h)

/-- Every response produced by the amount section is a 400 with no database
call. -/
theorem hvAmountError_is400 (body : HVBody) (r : HVResult)
    (h : hvAmountError body = some r) : r.status = 400 ∧ r.dbCalls = 0 := by
  unfold hvAmountError at h
  repeat' split at h
  all_goals first
    | (injection h with h2; subst h2; exact ⟨rfl, rfl⟩)
    | (exact Option.noConfusion h)

/-- Every response produced by the validation prefix of the
`/api/high-value-trans` handler is a 400 with no database call. -/
theorem hvValidationError_is400 (body : HVBody) (r : HVResult)
    (h : hvValidationError body = some r) : r.status = 400 ∧ r.dbCalls = 0 := by
  unfold hvValidationError at h
  cases h1 : hvRequiredError body with
  | some r1 =>
    rw [h1] at h
    simp only [Option.some_orElse] at h
    cases h
    exact hvRequiredError_is400 body r h1
  | none =>
    rw [h1] at h
    simp only [Option.none_orElse] at h
    cases h2 : hvLengthError body with
    | some r2 =>
      rw [h2] at h
      simp only [Option.some_orElse] at h
      cases h
      exact hvLengthError_is400 body r h2
    | none =>
      rw [h2] at h
      simp only [Option.none_orElse] at h
      exact hvAmountError_is400 body r h

/-- Claim C4 (amended): in the `index.js` endpoint
`POST /api/high-value-trans`, a response is a validation failure (400) if
and only if no database interaction took place, and the concrete request
with `minAmount = 500000 > maxAmount = 100000` yields 400 with the
field-specific message and zero database calls, whatever the database would
have answered. -/
theorem C4_validation_before_db (body : HVBody) (db : DbOutcome) :
    ((highValueTrans body db).status = 400 →
      (highValueTrans body db).dbCalls = 0) ∧
    ((highValueTrans body db).dbCalls = 0 →
      (highValueTrans body db).status = 400) ∧
    highValueTrans hvBodyMinGtMax db
      = ⟨400, "Minimum amount cannot be greater than maximum amount", 0⟩ := by
  have hiff : (highValueTrans body db).status = 400 ↔
      (highValueTrans body db).dbCalls = 0 := by
    unfold highValueTrans
    cases h : hvValidationError body with
    | some r =>
      have hr := hvValidationError_is400 body r h
      simp [hr.1, hr.2]
    | none => cases db <;> simp [runHVQuery]
  exact ⟨hiff.mp, hiff.mpr, by cases db <;> rfl⟩

/-- Witness for C4 (amended): the min-greater-than-max request produces
status 400 and, by the theorem, zero database calls. -/
theorem C4_validation_before_db_witness :
    (highValueTrans hvBodyMinGtMax (DbOutcome.rows 2)).dbCalls = 0 ∧
    highValueTrans hvBodyMinGtMax (DbOutcome.rows 2)
      = ⟨400, "Minimum amount cannot be greater than maximum amount", 0⟩ :=
  ⟨(C4_validation_before_db hvBodyMinGtMax (DbOutcome.rows 2)).1 rfl,
   (C4_validation_before_db hvBodyMinGtMax (DbOutcome.rows 2)).2.2⟩

/-- Claim C5: `authenticateToken` responds 401 `Access token required` when
no bearer token is present, 403 `Invalid or expired token` when a token is
present but `verifyToken` rejects it, and proceeds with the decoded claims
attached when verification succeeds. -/
theorem C5_authenticateToken_policy (cfg : AuthConfig) (now : Nat)
    (hdr : AuthHeader) :
    (extractToken hdr = none →
      authenticateToken cfg now hdr
        = MwResult.respond 401 ("Access token required")) ∧
    (∀ blob decoded, extractToken hdr = some blob →
      verifyToken cfg blob now = Except.ok decoded →
      authenticateToken cfg now hdr = MwResult.proceed decoded) ∧
    (∀ blob e, extractToken hdr = some blob →
      verifyToken cfg blob now = Except.error e →
      authenticateToken cfg now hdr
        = MwResult.respond 403 ("Invalid or expired token")) := by
  refine ⟨?_, ?_, ?_⟩
  · intro h
    simp [authenticateToken, h]
  · intro blob decoded h hv
    simp [authenticateToken, h, hv]
  · intro blob e h hv
    simp [authenticateToken, h, hv]

/-- Witness for C5: a request with no header gets 401; a request bearing a
token signed with the right secret and unexpired proceeds with the claims
attached; a request bearing garbage gets 403. -/
theorem C5_witness :
    authenticateToken cfgW 0 none
      = MwResult.respond 401 ("Access token required") ∧
    authenticateToken cfgW 0
        (some (some (TokenBlob.signed (jwtSign pW ("test-secret") 3600 0))))
      = MwResult.proceed pW ∧
    authenticateToken cfgW 0 (some (some (TokenBlob.malformed ("garbage"))))
      = MwResult.respond 403 ("Invalid or expired token") :=
  ⟨(C5_authenticateToken_policy cfgW 0 none).1 rfl,
   (C5_authenticateToken_policy cfgW 0 _).2.1 _ pW rfl rfl,
   (C5_authenticateToken_policy cfgW 0 _).2.2 _
     ("Invalid or expired token") rfl rfl⟩

/-- Claim C6: a token issued by `generateAccessToken` with configured ttl 0
is rejected by `verifyToken` immediately after issuance; one issued with
ttl 1h (3600 s) is rejected when verified 2h (7200 s) later on the logical
clock; and the same holds for `generateRefreshToken` — the ttl enters the
issuing operations as the configured expiry duration. -/
theorem C6_ttl_expiry (p : TokenPayload) (s : String) (r e now : Nat) :
    verifyToken ⟨s, 0, r⟩
        (TokenBlob.signed (generateAccessToken ⟨s, 0, r⟩ p now)) now
      = Except.error ("Invalid or expired token") ∧
    verifyToken ⟨s, 3600, r⟩
        (TokenBlob.signed (generateAccessToken ⟨s, 3600, r⟩ p now)) (now + 7200)
      = Except.error ("Invalid or expired token") ∧
    verifyToken ⟨s, e, 0⟩
        (TokenBlob.signed (generateRefreshToken ⟨s, e, 0⟩ p now)) now
      = Except.error ("Invalid or expired token") := by
  refine ⟨?_, ?_, ?_⟩ <;>
    simp [verifyToken, jwtVerifyBlob, jwtVerify, generateAccessToken,
      generateRefreshToken, jwtSign]

/-- Claim C7: `optionalAuthForReports` attaches the fixed system identity
(userId 1, username `system`, role `admin`) and proceeds, for every request,
whatever the Authorization header holds — it never blocks and its result
does not depend on the supplied credential. -/
theorem C7_optional_bypass (hdr : AuthHeader) :
    optionalAuthForReports hdr = MwResult.proceed ⟨1, "system", "admin"⟩ :=
  rfl

/-- Claim C8 (counterexample): an environment supplying only the four
database variables passes the startup validation and the process proceeds to
serve, even though `JWT_SECRET` is absent — the JWT secret silently falls
back to the hardcoded default instead of causing startup failure. -/
theorem C8_counterexample :
    validateRequiredEnv envDbOnly = EnvCheck.proceed ∧
    envDbOnly ("JWT_SECRET") = none ∧
    JWT_SECRET envDbOnly = defaultJwtSecret := by
  refine ⟨by decide, by decide, by decide⟩

/-- Claim C8 (amended): only `DB_USER`, `DB_PASSWORD`, `DB_SERVER` and
`DB_NAME` are validated at startup — all four present (and nonempty) lets
the process proceed, any of them missing causes exit code 1 — while a
missing `JWT_SECRET` silently resolves to the hardcoded default secret. -/
theorem C8_env_validation (env : String → Option String) :
    (requiredEnvVars.all (fun v => envTruthy (env v)) = true →
      validateRequiredEnv env = EnvCheck.proceed) ∧
    (requiredEnvVars.all (fun v => envTruthy (env v)) = false →
      validateRequiredEnv env = EnvCheck.exit 1) ∧
    (env ("JWT_SECRET") = none → JWT_SECRET env = defaultJwtSecret) := by
  refine ⟨?_, ?_, ?_⟩
  · intro h
    simp [validateRequiredEnv, h]
  · intro h
    simp [validateRequiredEnv, h]
  · intro h
    simp [JWT_SECRET, jsOrDefault, h]

/-- Witness for C8 (amended): the database-only environment proceeds, the
empty environment exits with code 1, and the database-only environment
resolves the JWT secret to the hardcoded default. -/
theorem C8_env_validation_witness :
    validateRequiredEnv envDbOnly = EnvCheck.proceed ∧
    validateRequiredEnv (fun _ => none) = EnvCheck.exit 1 ∧
    JWT_SECRET envDbOnly = defaultJwtSecret :=
  ⟨(C8_env_validation envDbOnly).1 (by decide),
   (C8_env_validation (fun _ => none)).2.1 (by decide),
   (C8_env_validation envDbOnly).2.2 (by decide)⟩

/-- Claim C9: a token produced by `generateAccessToken`, presented to
`refreshAccessToken` before its expiry, is accepted — verification is only
signature and expiry against the single shared secret — and the response is
200 with a new access token signed over the same `userId`, `username` and
`role`, so access and refresh tokens are interchangeable at the refresh
endpoint. -/
theorem C9_access_token_refreshable (cfg : AuthConfig) (p : TokenPayload)
    (now now' : Nat) (h : now' < now + cfg.jwtExpiresIn) :
    refreshAccessToken cfg now'
        (some (TokenBlob.signed (generateAccessToken cfg p now)))
      = ⟨200, true, "Token refreshed successfully",
          some (jwtSign p cfg.jwtSecret cfg.jwtExpiresIn now'), some p⟩ := by
  have hne : ¬ (now + cfg.jwtExpiresIn ≤ now') := by omega
  simp [refreshAccessToken, verifyToken, jwtVerifyBlob, jwtVerify,
    generateAccessToken, jwtSign, hne]

/-- Witness for C9: the concrete access token issued at time 0 with ttl 3600
is accepted by the refresh operation at time 5, yielding a fresh access
token over the same claims. -/
theorem C9_access_token_refreshable_witness :
    refreshAccessToken cfgW 5
        (some (TokenBlob.signed (generateAccessToken cfgW pW 0)))
      = ⟨200, true, "Token refreshed successfully",
          some (jwtSign pW ("test-secret") 3600 5), some pW⟩ :=
  C9_access_token_refreshable cfgW pW 0 5 (by decide)

/-- Claim C10: for any user table and username whose record exists, the
unauthenticated `GET /api/test/user/:username` endpoint responds 200 with
the stored plaintext password's length and whether the stored password
equals the literal `"2255"`; the route is registered with no middleware. -/
theorem C10_test_user_endpoint (db : List UserRec) (username : String)
    (u : UserRec) (h : db.find? (fun x => x.User_Name == username) = some u) :
    getTestUser db username
      = ⟨200, true, "User found", some u.User_Password.length,
          some (u.User_Password == "2255")⟩ ∧
    testUserRoute.middlewares = [] := by
  refine ⟨?_, rfl⟩
  simp [getTestUser, h]

/-- Witness for C10: a table holding the user `john` with stored password
`"2255"` answers with password length 4 and a positive password match. -/
theorem C10_test_user_endpoint_witness :
    getTestUser [userJohn] ("john")
      = ⟨200, true, "User found", some 4, some true⟩ ∧
    testUserRoute.middlewares = [] :=
  C10_test_user_endpoint [userJohn] ("john") userJohn (by decide)
